import Mathlib

set_option maxHeartbeats 1000000

/-!
Shallow embedding of the Aptos module-verification cache:
`aptos-move/aptos-vm-environment/src/environment.rs` and
`aptos-move/block-executor/src/cross_block_caches.rs`.

Machine addresses and identifiers are modelled as `Nat` and `String`;
state keys derived from `(address, module_name)` are the pair itself.
Collaborator types from other crates (`move_vm_runtime`, `aptos_types`)
are modelled as the black boxes the specification describes.
-/

namespace Aptos

/-- A storage key derived from a module address and module name
(`StateKey::from_address_and_module_name`). -/
abbrev StateKey := Nat × String

/-- The compiled (parsed) form of a module: its declared address, declared
name, and immediate dependencies in declaration order
(`as_compiled_module`, `immediate_dependencies_iter`). -/
structure CompiledModule where
  address : Nat
  name : String
  deps : List (Nat × String)
deriving DecidableEq

/-- A verified module handle, as produced by final dependency-aware
verification (`move_vm_runtime::Module`). -/
structure Module where
  cm : CompiledModule
deriving DecidableEq

/-- A module storage entry (`ModuleStorageEntry`): immutable artifact wrapping
a module in either its locally parsed, unverified state or its verified state
(the latter additionally holds the verified module handle). It is identified
by a content hash and byte size. -/
inductive ModuleStorageEntry where
  | unverified (cm : CompiledModule) (size hash : Nat)
  | verified (cm : CompiledModule) (size hash : Nat) (m : Module)
deriving DecidableEq

/-- The compiled module wrapped by an entry (`as_compiled_module`). -/
def ModuleStorageEntry.as_compiled_module : ModuleStorageEntry → CompiledModule
  | .unverified cm _ _ => cm
  | .verified cm _ _ _ => cm

/-- Byte size of the entry (`size_in_bytes`). -/
def ModuleStorageEntry.size_in_bytes : ModuleStorageEntry → Nat
  | .unverified _ size _ => size
  | .verified _ size _ _ => size

/-- Content hash of the entry (`hash`). -/
def ModuleStorageEntry.entry_hash : ModuleStorageEntry → Nat
  | .unverified _ _ h => h
  | .verified _ _ h _ => h

/-- Returns the verified module handle if the entry is verified
(`try_as_verified_module`). -/
def ModuleStorageEntry.try_as_verified_module : ModuleStorageEntry → Option Module
  | .unverified _ _ _ => none
  | .verified _ _ _ m => some m

/-- Whether the entry is in the verified state (`is_verified`). -/
def ModuleStorageEntry.is_verified : ModuleStorageEntry → Bool
  | .unverified _ _ _ => false
  | .verified _ _ _ _ => true

/-- Transition an entry to its verified state, keeping its compiled form,
size and hash and attaching the verified module handle (`make_verified`). -/
def ModuleStorageEntry.make_verified (e : ModuleStorageEntry) (m : Module) :
    ModuleStorageEntry :=
  .verified e.as_compiled_module e.size_in_bytes e.entry_hash m

/-- A raw state value fetched from the base snapshot: the bytes of a module.
Modelled from the spec: the module-storage collaborator that constructs an
entry from raw bytes is a black box; `wellFormed` records whether that
construction succeeds. -/
structure StateValue where
  cm : CompiledModule
  size : Nat
  hash : Nat
  wellFormed : Bool
deriving DecidableEq

/-- VM-level errors surfaced by the cache and traversal.
`fuelExhausted` is an artifact of the model only: the Rust recursion carries
no fuel, and every theorem about the traversal either holds for all fuel or
assumes fuel larger than the recursion depth of the concrete scenario. -/
inductive VMError where
  | fuelExhausted
  | storageError
  | linkerError (address : Nat) (name : String)
  | cyclicDependencyError (address : Nat) (name : String)
  | moduleAddressNameMismatchError (address : Nat) (name : String)
  | verificationError
  | deserializationError
deriving DecidableEq

/-- The verification interface of the runtime environment used by the
traversal. Modelled from the spec: local (dependency-independent) and final
(dependency-aware) bytecode verification are already-correct black boxes of
`move_vm_runtime`, represented by their success predicates
(`build_locally_verified_module`, `build_verified_module`). -/
structure VerifierEnv where
  buildLocallyVerifiedOk : CompiledModule → Nat → Nat → Bool
  buildVerifiedOk : CompiledModule → List Module → Bool

/-- Construct a fresh unverified entry from a raw state value
(`ModuleStorageEntry::from_state_value`); fails when the bytes cannot be
deserialized. -/
def ModuleStorageEntry.from_state_value (sv : StateValue) :
    Except VMError ModuleStorageEntry :=
  if sv.wellFormed then Except.ok (ModuleStorageEntry.unverified sv.cm sv.size sv.hash)
  else Except.error VMError.deserializationError

/-- First-match association-list lookup, modelling `HashMap::get`. -/
def lookupEntry : List (StateKey × ModuleStorageEntry) → StateKey →
    Option ModuleStorageEntry
  | [], _ => none
  | (k', v) :: rest, k => if k = k' then some v else lookupEntry rest k

/-- The module cache (`ModuleCache`): a mapping from state key to entry plus
an `invalidated` flag. The map is modelled as an association list whose
lookup returns the most recent insertion for a key, matching `HashMap`
insert/overwrite semantics. -/
structure ModuleCache where
  invalidated : Bool
  modules : List (StateKey × ModuleStorageEntry)
deriving DecidableEq

/-- Models `ModuleCache::empty`. -/
def ModuleCache.empty : ModuleCache := ⟨false, []⟩

/-- Lookup of a module entry in the cache (`self.modules.get`). -/
def ModuleCache.getModule (c : ModuleCache) (k : StateKey) :
    Option ModuleStorageEntry :=
  lookupEntry c.modules k

/-- Insert/overwrite of a module entry (`self.modules.insert`). -/
def ModuleCache.insertModule (c : ModuleCache) (k : StateKey)
    (e : ModuleStorageEntry) : ModuleCache :=
  { c with modules := (k, e) :: c.modules }

/-- Models `ModuleCache::flush`: unconditional clear, resetting the flag. -/
def ModuleCache.flush (_c : ModuleCache) : ModuleCache := ⟨false, []⟩

/-- Models `ModuleCache::flush_if_invalidated_and_mark_valid`: if the flag is set,
clear all entries and reset the flag; otherwise do nothing. -/
def ModuleCache.flush_if_invalidated_and_mark_valid (c : ModuleCache) :
    ModuleCache :=
  if c.invalidated then ⟨false, []⟩ else c

/-- Resolution of a dependency entry during traversal (the body of the
`match self.modules.get(&dep_key)` in `ModuleCache::traverse`): a cached
entry is taken directly; otherwise the raw state value is fetched from the
base snapshot — a failed read is a storage error, absence is a linker error
naming the missing (address, name), and presence yields a fresh entry. -/
def ModuleCache.fetch_dep_entry (c : ModuleCache)
    (baseView : StateKey → Except Unit (Option StateValue)) (depKey : StateKey) :
    Except VMError ModuleStorageEntry :=
  match c.getModule depKey with
  | some e => Except.ok e
  | none =>
    match baseView depKey with
    | Except.error _ => Except.error VMError.storageError
    | Except.ok none => Except.error (VMError.linkerError depKey.1 depKey.2)
    | Except.ok (some sv) => ModuleStorageEntry.from_state_value sv

mutual

/-- Models `ModuleCache::traverse`: recursive depth-first walk over the
immediate-dependency graph. Validates the declared (address, name), builds a
locally verified module, resolves and (recursively) verifies every immediate
dependency in declaration order with per-traversal cycle detection on the
`visited` set, then runs final verification and commits the verified entry to
the cache under the module's key. The cache and visited set are threaded
through and returned also on error, mirroring the mutations retained by
`&mut self` / `&mut visited` in Rust. `fuel` bounds the recursion depth (a
model artifact, see `VMError.fuelExhausted`). -/
def ModuleCache.traverse (fuel : Nat) (cache : ModuleCache)
    (entry : ModuleStorageEntry) (address : Nat) (moduleName : String)
    (baseView : StateKey → Except Unit (Option StateValue))
    (visited : List StateKey) (venv : VerifierEnv) :
    Except VMError Module × ModuleCache × List StateKey :=
  match fuel with
  | 0 => (Except.error VMError.fuelExhausted, cache, visited)
  | f + 1 =>
    let cm := entry.as_compiled_module
    if cm.address = address ∧ cm.name = moduleName then
      if venv.buildLocallyVerifiedOk cm entry.size_in_bytes entry.entry_hash then
        match ModuleCache.traverseDeps f cache cm.deps address moduleName baseView
            visited venv with
        | (Except.error e, cache', visited') => (Except.error e, cache', visited')
        | (Except.ok verifiedDeps, cache', visited') =>
          if venv.buildVerifiedOk cm verifiedDeps then
            let m : Module := ⟨cm⟩
            (Except.ok m,
             cache'.insertModule (address, moduleName) (entry.make_verified m),
             visited')
          else
            (Except.error VMError.verificationError, cache', visited')
      else
        (Except.error VMError.verificationError, cache, visited)
    else
      (Except.error (VMError.moduleAddressNameMismatchError address moduleName),
       cache, visited)
termination_by (fuel, 0)

/-- The dependency loop of `ModuleCache::traverse` (the `for (addr, name) in
immediate_dependencies_iter()` loop): resolves each dependency, takes verified
cached dependencies directly, and recurses into unverified ones after
inserting the dependency key into the per-traversal visited set — a key
already present means a cycle, reported against the traversed module's
(address, moduleName). Accumulates the verified dependency handles in order. -/
def ModuleCache.traverseDeps (fuel : Nat) (cache : ModuleCache)
    (deps : List (Nat × String)) (address : Nat) (moduleName : String)
    (baseView : StateKey → Except Unit (Option StateValue))
    (visited : List StateKey) (venv : VerifierEnv) :
    Except VMError (List Module) × ModuleCache × List StateKey :=
  match deps with
  | [] => (Except.ok [], cache, visited)
  | (addr, name) :: rest =>
    let depKey : StateKey := (addr, name)
    match cache.fetch_dep_entry baseView depKey with
    | Except.error e => (Except.error e, cache, visited)
    | Except.ok depEntry =>
      match depEntry.try_as_verified_module with
      | some m =>
        match ModuleCache.traverseDeps fuel cache rest address moduleName baseView
            visited venv with
        | (Except.error e, cache', visited') => (Except.error e, cache', visited')
        | (Except.ok ms, cache', visited') => (Except.ok (m :: ms), cache', visited')
      | none =>
        if depKey ∈ visited then
          (Except.error (VMError.cyclicDependencyError address moduleName),
           cache, visited)
        else
          match ModuleCache.traverse fuel cache depEntry addr name baseView
              (depKey :: visited) venv with
          | (Except.error e, cache', visited') => (Except.error e, cache', visited')
          | (Except.ok m, cache', visited') =>
            match ModuleCache.traverseDeps fuel cache' rest address moduleName
                baseView visited' venv with
            | (Except.error e, cache'', visited'') =>
              (Except.error e, cache'', visited'')
            | (Except.ok ms, cache'', visited'') =>
              (Except.ok (m :: ms), cache'', visited'')
termination_by (fuel, deps.length + 1)

end

/-- Models `CrossBlockModuleCache::traverse`: the public entry point, which starts a
traversal with a fresh (empty) visited set. The process-wide singleton is
modelled as explicit state: the function takes the current cache and returns
the result together with the updated cache. -/
def CrossBlockModuleCache.traverse (fuel : Nat) (cache : ModuleCache)
    (entry : ModuleStorageEntry) (address : Nat) (moduleName : String)
    (baseView : StateKey → Except Unit (Option StateValue)) (venv : VerifierEnv) :
    Except VMError Module × ModuleCache :=
  let r := ModuleCache.traverse fuel cache entry address moduleName baseView [] venv
  (r.1, r.2.1)

/-- Models `CrossBlockModuleCache::is_invalidated`. -/
def CrossBlockModuleCache.is_invalidated (c : ModuleCache) : Bool :=
  c.invalidated

/-- Models `CrossBlockModuleCache::mark_invalid`: set the flag; entries are kept. -/
def CrossBlockModuleCache.mark_invalid (c : ModuleCache) : ModuleCache :=
  { c with invalidated := true }

/-- Models `CrossBlockModuleCache::flush_cross_block_module_cache_if_invalidated`. -/
def CrossBlockModuleCache.flush_cross_block_module_cache_if_invalidated
    (c : ModuleCache) : ModuleCache :=
  c.flush_if_invalidated_and_mark_valid

/-- Models `CrossBlockModuleCache::get_from_cross_block_module_cache`. -/
def CrossBlockModuleCache.get_from_cross_block_module_cache (c : ModuleCache)
    (k : StateKey) : Option ModuleStorageEntry :=
  c.getModule k

/-- Models `CrossBlockModuleCache::store_to_cross_block_module_cache` (the `put`
operation): insert/overwrite an arbitrary entry, verified or not. -/
def CrossBlockModuleCache.store_to_cross_block_module_cache (c : ModuleCache)
    (k : StateKey) (e : ModuleStorageEntry) : ModuleCache :=
  c.insertModule k e

/-- Feature flags (`aptos_types::on_chain_config::FeatureFlag`); only the two
flags this core reads are named, the rest are indexed opaquely. -/
inductive FeatureFlag where
  | ENABLE_LOADER_V2
  | AGGREGATOR_V2_DELAYED_FIELDS
  | other (idx : Nat)
deriving DecidableEq

/-- The feature flag set (`Features`), modelled as a duplicate-free flag list
with set semantics for enable/disable/membership. -/
structure Features where
  flags : List FeatureFlag
deriving DecidableEq

/-- Models `Features::is_enabled` membership test. -/
def Features.is_enabled (f : Features) (flag : FeatureFlag) : Bool :=
  f.flags.contains flag

/-- Models `Features::enable`: set the flag's bit. -/
def Features.enable (f : Features) (flag : FeatureFlag) : Features :=
  if f.flags.contains flag then f else ⟨flag :: f.flags⟩

/-- Models `Features::disable`: clear the flag's bit. -/
def Features.disable (f : Features) (flag : FeatureFlag) : Features :=
  ⟨f.flags.filter (fun g => g ≠ flag)⟩

/-- Models `Features::is_aggregator_v2_delayed_fields_enabled`. Modelled from the
spec: the aggregator-v2 delayed-fields feature gate of `aptos_types`. -/
def Features.is_aggregator_v2_delayed_fields_enabled (f : Features) : Bool :=
  f.is_enabled FeatureFlag.AGGREGATOR_V2_DELAYED_FIELDS

/-- Models `Features::default`: the baseline feature set used when the snapshot has
no feature configuration. Modelled from the spec as an opaque baseline; none
of the claims depends on its contents. -/
def Features.defaultFeatures : Features := ⟨[]⟩

/-- Chain identity (`ChainId`), a small integer distinguishing networks. -/
abbrev ChainId := Nat

/-- Models `ChainId::test`, the designated identity for snapshots without chain-id
configuration. Modelled from the spec; the concrete value is opaque. -/
def ChainId.test : ChainId := 4

/-- An externally supplied timed-feature override profile
(`get_timed_feature_override`). -/
inductive TimedFeatureOverride where
  | replay
  | testing
deriving DecidableEq

/-- The timed feature set (`TimedFeatures`): flags gated by chain identity and
a logical timestamp, optionally overridden by a profile. Modelled from the
spec: it is fully determined by its build inputs. -/
structure TimedFeatures where
  chainId : ChainId
  timestamp : Nat
  overrideProfile : Option TimedFeatureOverride
deriving DecidableEq

/-- Models `TimedFeaturesBuilder`, carrying the inputs of `build`. -/
structure TimedFeaturesBuilder where
  chainId : ChainId
  timestamp : Nat
  overrideProfile : Option TimedFeatureOverride
deriving DecidableEq

/-- Models `TimedFeaturesBuilder::new(chain_id, timestamp)`. -/
def TimedFeaturesBuilder.new (chainId : ChainId) (timestamp : Nat) :
    TimedFeaturesBuilder :=
  ⟨chainId, timestamp, none⟩

/-- Models `TimedFeaturesBuilder::with_override_profile`. -/
def TimedFeaturesBuilder.with_override_profile (b : TimedFeaturesBuilder)
    (p : TimedFeatureOverride) : TimedFeaturesBuilder :=
  { b with overrideProfile := some p }

/-- Models `TimedFeaturesBuilder::build`. -/
def TimedFeaturesBuilder.build (b : TimedFeaturesBuilder) : TimedFeatures :=
  ⟨b.chainId, b.timestamp, b.overrideProfile⟩

/-- Native-function gas parameters (`NativeGasParameters`), opaque payload
with a distinguished all-zero value. -/
structure NativeGasParameters where
  payload : Nat
deriving DecidableEq

/-- Models `NativeGasParameters::zeros`. -/
def NativeGasParameters.zeros : NativeGasParameters := ⟨0⟩

/-- Miscellaneous gas parameters (`MiscGasParameters`, the `vm.misc` part),
opaque payload with a distinguished all-zero value. -/
structure MiscGasParameters where
  payload : Nat
deriving DecidableEq

/-- Models `MiscGasParameters::zeros`. -/
def MiscGasParameters.zeros : MiscGasParameters := ⟨0⟩

/-- The resolved on-chain gas parameter set (`AptosGasParameters`); `natives`
is `gas_params.natives` and `vmMisc` is `gas_params.vm.misc`. -/
structure AptosGasParameters where
  natives : NativeGasParameters
  vmMisc : MiscGasParameters
deriving DecidableEq

/-- Storage gas parameters (`StorageGasParameters`), opaque. -/
structure StorageGasParameters where
  payload : Nat
deriving DecidableEq

/-- The type-size builder (`TyBuilder`): either the production builder derived
from the gas feature version and gas parameters (`aptos_prod_ty_builder`) or
the default builder (`aptos_default_ty_builder`). Modelled from the spec
(`prod_configs` is not part of the provided sources). -/
inductive TyBuilder where
  | prod (gasFeatureVersion : Nat) (gasParams : AptosGasParameters)
  | defaultBuilder
deriving DecidableEq

/-- Models `aptos_prod_ty_builder(gas_feature_version, gas_params)`. -/
def aptos_prod_ty_builder (gasFeatureVersion : Nat)
    (gasParams : AptosGasParameters) : TyBuilder :=
  TyBuilder.prod gasFeatureVersion gasParams

/-- Models `aptos_default_ty_builder()`. -/
def aptos_default_ty_builder : TyBuilder := TyBuilder.defaultBuilder

/-- The VM behavioral configuration (`VMConfig`) assembled by
`aptos_prod_vm_config(features, timed_features, ty_builder)`. Modelled from
the spec: it is determined by its three inputs, and the delayed-field
optimization flag of a freshly assembled config is off (the repository's own
test asserts this for a fresh environment). -/
structure VMConfig where
  delayedFieldOptimizationEnabled : Bool
  features : Features
  timedFeatures : TimedFeatures
  tyBuilder : TyBuilder
deriving DecidableEq

/-- Models `aptos_prod_vm_config(features, timed_features, ty_builder)`. -/
def aptos_prod_vm_config (features : Features) (timedFeatures : TimedFeatures)
    (tyBuilder : TyBuilder) : VMConfig :=
  { delayedFieldOptimizationEnabled := false
    features := features
    timedFeatures := timedFeatures
    tyBuilder := tyBuilder }

/-- The native-function registration table, modelled by the inputs that
determine it: `aptos_natives_with_builder` consumes a `SafeNativeBuilder`
(gas feature version, native and misc gas parameters, timed features,
features, optional gas hook) plus the create-signer injection flag. -/
structure NativeTable where
  gasFeatureVersion : Nat
  nativeGasParams : NativeGasParameters
  miscGasParams : MiscGasParameters
  timedFeatures : TimedFeatures
  features : Features
  hasGasHook : Bool
  injectCreateSignerForGovSim : Bool
deriving DecidableEq

/-- A user-supplied gas-calibration hook; only its presence is observable in
the model (functions are opaque). -/
abbrev GasHook := Unit

/-- Models `SafeNativeBuilder`, carrying the builder arguments. -/
structure SafeNativeBuilder where
  gasFeatureVersion : Nat
  nativeGasParams : NativeGasParameters
  miscGasParams : MiscGasParameters
  timedFeatures : TimedFeatures
  features : Features
  hasGasHook : Bool
deriving DecidableEq

/-- Models `SafeNativeBuilder::new(...)`. -/
def SafeNativeBuilder.new (gasFeatureVersion : Nat)
    (nativeGasParams : NativeGasParameters) (miscGasParams : MiscGasParameters)
    (timedFeatures : TimedFeatures) (features : Features)
    (gasHook : Option GasHook) : SafeNativeBuilder :=
  ⟨gasFeatureVersion, nativeGasParams, miscGasParams, timedFeatures, features,
   gasHook.isSome⟩

/-- Models `aptos_natives_with_builder(builder, inject_create_signer_for_gov_sim)`.
Modelled from the spec: the table is determined by the builder inputs and the
injection flag. -/
def aptos_natives_with_builder (b : SafeNativeBuilder)
    (injectCreateSignerForGovSim : Bool) : NativeTable :=
  ⟨b.gasFeatureVersion, b.nativeGasParams, b.miscGasParams, b.timedFeatures,
   b.features, b.hasGasHook, injectCreateSignerForGovSim⟩

/-- The runtime environment configuration held by an `Environment`
(`move_vm_runtime::RuntimeEnvironment`): the native table plus the VM config.
(The verification interface of the same Rust object is modelled separately as
`VerifierEnv` because only the traversal uses it.) -/
structure RuntimeEnvironment where
  natives : NativeTable
  vmConfig : VMConfig
deriving DecidableEq

/-- Models `RuntimeEnvironment::new_with_config(natives, vm_config)`. -/
def RuntimeEnvironment.new_with_config (natives : NativeTable)
    (vmConfig : VMConfig) : RuntimeEnvironment :=
  ⟨natives, vmConfig⟩

/-- Models `RuntimeEnvironment::enable_delayed_field_optimization`: set the
VM-config flag. -/
def RuntimeEnvironment.enable_delayed_field_optimization
    (r : RuntimeEnvironment) : RuntimeEnvironment :=
  { r with vmConfig := { r.vmConfig with delayedFieldOptimizationEnabled := true } }

/-- Process-wide ambient configuration read during environment construction:
the loader toggle `use_loader_v1_based_on_env()` and the timed-feature
override `get_timed_feature_override()`. Modelled as explicit inputs. -/
structure Ambient where
  useLoaderV1 : Bool
  timedFeatureOverride : Option TimedFeatureOverride
deriving DecidableEq

/-- The facet of the state snapshot consumed by environment construction:
the fetched feature configuration, chain id, and last reconfiguration time
(each absent in degenerate states), plus the gas-parameter resolution
`get_gas_parameters(features, state_view)`. The latter is modelled from the
spec (`gas.rs` is not part of the provided sources): given the features it
returns the gas parameters or an error string, the storage gas parameters or
an error string, and the gas feature version. -/
structure EnvStateView where
  features : Option Features
  chainId : Option ChainId
  lastReconfigTime : Option Nat
  getGasParameters : Features →
    (Except String AptosGasParameters × Except String StorageGasParameters × Nat)

instance {ε α : Type} [DecidableEq ε] [DecidableEq α] : DecidableEq (Except ε α) :=
  fun a b =>
  match a, b with
  | Except.ok x, Except.ok y =>
    if h : x = y then isTrue (by rw [h])
    else isFalse (by intro he; cases he; exact h rfl)
  | Except.ok _, Except.error _ => isFalse (by intro h; cases h)
  | Except.error _, Except.ok _ => isFalse (by intro h; cases h)
  | Except.error x, Except.error y =>
    if h : x = y then isTrue (by rw [h])
    else isFalse (by intro he; cases he; exact h rfl)

/-- The execution environment (`Environment`): immutable snapshot of all
configuration affecting module verification and execution. -/
structure Environment where
  chain_id : ChainId
  features : Features
  timed_features : TimedFeatures
  gas_feature_version : Nat
  gas_params : Except String AptosGasParameters
  storage_gas_params : Except String StorageGasParameters
  runtime_environment : RuntimeEnvironment
  inject_create_signer_for_gov_sim : Bool
deriving DecidableEq

/-- The feature set effective after the loader-v2 override: fetched features
(or the baseline) with `ENABLE_LOADER_V2` force-disabled or force-enabled by
the process-wide toggle. -/
def Environment.effectiveFeatures (amb : Ambient) (sv : EnvStateView) : Features :=
  let features := sv.features.getD Features.defaultFeatures
  if amb.useLoaderV1 then features.disable FeatureFlag.ENABLE_LOADER_V2
  else features.enable FeatureFlag.ENABLE_LOADER_V2

/-- Models `Environment::new(state_view, inject_create_signer_for_gov_sim,
gas_hook)`: reads features, chain id and reconfiguration time with their
documented defaults, builds the timed features, resolves gas parameters
(falling back to zeroed native/misc parameters and the default type builder
on failure, while recording the error), registers natives and assembles the
runtime environment. Total: construction never fails. -/
def Environment.new (amb : Ambient) (sv : EnvStateView)
    (inject_create_signer_for_gov_sim : Bool) (gasHook : Option GasHook) :
    Environment :=
  let features := Environment.effectiveFeatures amb sv
  let chainId := sv.chainId.getD ChainId.test
  let timestamp := sv.lastReconfigTime.getD 0
  let timedFeaturesBuilder := TimedFeaturesBuilder.new chainId timestamp
  let timedFeaturesBuilder :=
    match amb.timedFeatureOverride with
    | some profile => timedFeaturesBuilder.with_override_profile profile
    | none => timedFeaturesBuilder
  let timedFeatures := timedFeaturesBuilder.build
  let gp := sv.getGasParameters features
  let gasParams := gp.1
  let storageGasParams := gp.2.1
  let gasFeatureVersion := gp.2.2
  let nmt : NativeGasParameters × MiscGasParameters × TyBuilder :=
    match gasParams with
    | Except.ok g =>
      (g.natives, g.vmMisc, aptos_prod_ty_builder gasFeatureVersion g)
    | Except.error _ =>
      (NativeGasParameters.zeros, MiscGasParameters.zeros, aptos_default_ty_builder)
  let builder := SafeNativeBuilder.new gasFeatureVersion nmt.1 nmt.2.1
    timedFeatures features gasHook
  let natives := aptos_natives_with_builder builder inject_create_signer_for_gov_sim
  let vmConfig := aptos_prod_vm_config features timedFeatures nmt.2.2
  let runtimeEnvironment := RuntimeEnvironment.new_with_config natives vmConfig
  { chain_id := chainId
    features := features
    timed_features := timedFeatures
    gas_feature_version := gasFeatureVersion
    gas_params := gasParams
    storage_gas_params := storageGasParams
    runtime_environment := runtimeEnvironment
    inject_create_signer_for_gov_sim := inject_create_signer_for_gov_sim }

/-- Models `Environment::try_enable_delayed_field_optimization`: flip the VM-config
flag on only if the aggregator-v2 delayed-fields feature is active. -/
def Environment.try_enable_delayed_field_optimization (e : Environment) :
    Environment :=
  if e.features.is_aggregator_v2_delayed_fields_enabled then
    { e with runtime_environment :=
        e.runtime_environment.enable_delayed_field_optimization }
  else e

/-- Models `AptosEnvironment` is a shared-ownership wrapper around `Environment`;
sharing is immaterial to the model, so it is the same type. -/
abbrev AptosEnvironment := Environment

/-- Models `AptosEnvironment::new(state_view)`. -/
def AptosEnvironment.new (amb : Ambient) (sv : EnvStateView) : AptosEnvironment :=
  Environment.new amb sv false none

/-- Models `AptosEnvironment::new_with_gas_hook(state_view, gas_hook)`. -/
def AptosEnvironment.new_with_gas_hook (amb : Ambient) (sv : EnvStateView)
    (gasHook : GasHook) : AptosEnvironment :=
  Environment.new amb sv false (some gasHook)

/-- Models `AptosEnvironment::new_with_injected_create_signer_for_gov_sim
(state_view)`. -/
def AptosEnvironment.new_with_injected_create_signer_for_gov_sim
    (amb : Ambient) (sv : EnvStateView) : AptosEnvironment :=
  Environment.new amb sv true none

/-- Models `AptosEnvironment::new_with_delayed_field_optimization_enabled
(state_view)`: as written in the source, it calls `Environment::new` with the
create-signer injection argument set to `true` and then tries to enable the
delayed-field optimization. -/
def AptosEnvironment.new_with_delayed_field_optimization_enabled
    (amb : Ambient) (sv : EnvStateView) : AptosEnvironment :=
  (Environment.new amb sv true none).try_enable_delayed_field_optimization

/-- Models `AptosEnvironment::chain_id` accessor. -/
def AptosEnvironment.chain_id_of (e : AptosEnvironment) : ChainId := e.chain_id

/-- Models `AptosEnvironment::vm_config` accessor: the VM config of the runtime
environment. -/
def AptosEnvironment.vm_config (e : AptosEnvironment) : VMConfig :=
  e.runtime_environment.vmConfig

/-- Models `AptosEnvironment::gas_params` accessor. -/
def AptosEnvironment.gas_params_of (e : AptosEnvironment) :
    Except String AptosGasParameters :=
  e.gas_params

/-- A unique identifier for an `AptosEnvironment` (`EnvironmentID`): the bcs
serialization of (chain id, features, timed features, gas feature version,
VM config). Serialization of these value types is injective and total
(failure is treated by the source as an unreachable programming error), so
the identifier is modelled as the tuple itself. -/
structure EnvironmentID where
  chainId : ChainId
  features : Features
  timedFeatures : TimedFeatures
  gasFeatureVersion : Nat
  vmConfig : VMConfig
deriving DecidableEq

/-- Models `EnvironmentID::new(env)`. -/
def EnvironmentID.new (env : AptosEnvironment) : EnvironmentID :=
  ⟨env.chain_id, env.features, env.timed_features, env.gas_feature_version,
   env.runtime_environment.vmConfig⟩

/-- Models `CachedAptosEnvironment`: the most recently built environment plus its
identifier. -/
structure CachedAptosEnvironment where
  id : EnvironmentID
  env : AptosEnvironment
deriving DecidableEq

/-- Models `CachedAptosEnvironment::fetch_with_delayed_field_optimization_enabled`:
build an environment for the current state and its identifier; if a cached
pair with the same identifier is stored, return the cached environment and
leave the stored pair unchanged; otherwise replace the stored pair with the
new environment and its identifier and return the new environment. The
process-wide `CROSS_BLOCK_ENVIRONMENT` singleton is modelled as explicit
state threaded in and out. -/
def CachedAptosEnvironment.fetch_with_delayed_field_optimization_enabled
    (amb : Ambient) (sv : EnvStateView)
    (stored : Option CachedAptosEnvironment) :
    AptosEnvironment × Option CachedAptosEnvironment :=
  let env := AptosEnvironment.new_with_delayed_field_optimization_enabled amb sv
  let id := EnvironmentID.new env
  match stored with
  | some cached =>
    if id = cached.id then (cached.env, stored)
    else (env, some ⟨id, env⟩)
  | none => (env, some ⟨id, env⟩)

/-- The facet of the state snapshot and module-storage collaborator consumed
by the framework preload: `get_state_value` (fallible, with absence distinct
from failure) and `fetch_verified_module` on the code storage built from the
snapshot (likewise fallible). -/
structure CodeStorageView where
  getStateValue : StateKey → Except Unit (Option StateValue)
  fetchVerifiedModule : Nat → String → Except Unit (Option Module)

/-- The framework address `AccountAddress::ONE`. -/
def accountAddressOne : Nat := 1

/-- Models `StateKey::module(&AccountAddress::ONE, name)` for a framework module. -/
def frameworkKey (name : String) : StateKey := (accountAddressOne, name)

/-- Models `ModuleStorageEntry::from_state_value_and_verified_module(state_value,
module)`: a verified entry built directly from the raw bytes and the verified
module handle. -/
def ModuleStorageEntry.from_state_value_and_verified_module (sv : StateValue)
    (m : Module) : ModuleStorageEntry :=
  ModuleStorageEntry.verified sv.cm sv.size sv.hash m

/-- The framework preload mapping: an immutable map from state key to entry,
atomically swappable as a whole. -/
abbrev FrameworkMap := List (StateKey × ModuleStorageEntry)

/-- Outcome of the framework preload: either the process aborted on a failed
assertion (`assert_ok!` on a failed read), or it completed with the new value
of the atomically swappable `MODULE_CACHE` cell. -/
inductive InitOutcome where
  | panicked
  | done (cache : Option FrameworkMap)
deriving DecidableEq

/-- The fixed, hand-maintained, dependency-ordered list of framework module
names preloaded by `maybe_initialize_module_cache` (including the duplicated
`gas_schedule` entry of the source). -/
def orderedModuleNames : List String :=
  ["vector", "signer", "error", "hash", "features", "bcs", "option", "string",
   "fixed_point32",
   "type_info", "ed25519", "from_bcs", "multi_ed25519", "table", "bls12381",
   "math64", "fixed_point64", "math128", "math_fixed64", "table_with_length",
   "copyable_any", "simple_map", "bn254_algebra", "crypto_algebra",
   "aptos_hash",
   "guid", "system_addresses", "chain_id", "timestamp", "event",
   "create_signer", "account", "aggregator", "aggregator_factory",
   "optional_aggregator", "transaction_context", "randomness", "object",
   "aggregator_v2", "function_info", "fungible_asset",
   "dispatchable_fungible_asset", "primary_fungible_store", "coin",
   "aptos_coin", "aptos_account", "chain_status", "staking_config", "stake",
   "transaction_fee", "transaction_validation", "reconfiguration_state",
   "state_storage", "storage_gas", "reconfiguration", "config_buffer",
   "randomness_api_v0_config", "randomness_config",
   "randomness_config_seqnum", "keyless_account", "consensus_config",
   "execution_config", "validator_consensus_info", "dkg", "gas_schedule",
   "util", "gas_schedule", "jwk_consensus_config", "jwks",
   "reconfiguration_with_dkg", "block", "code"]

/-- The loop body of the framework preload over the ordered name list: for
each name, read its state value and fetch its verified module — a failed read
aborts via `assert_ok!` (modelled as `InitOutcome.panicked`); if both are
present the entry is inserted, otherwise the name is silently skipped. -/
def buildFrameworkCache (sv : CodeStorageView) (names : List String)
    (acc : FrameworkMap) : InitOutcome :=
  match names with
  | [] => InitOutcome.done (some acc)
  | name :: rest =>
    match sv.getStateValue (frameworkKey name) with
    | Except.error _ => InitOutcome.panicked
    | Except.ok stateValue =>
      match sv.fetchVerifiedModule accountAddressOne name with
      | Except.error _ => InitOutcome.panicked
      | Except.ok m =>
        match stateValue, m with
        | some v, some m =>
          buildFrameworkCache sv rest
            ((frameworkKey name,
              ModuleStorageEntry.from_state_value_and_verified_module v m) :: acc)
        | _, _ => buildFrameworkCache sv rest acc

/-- Models `maybe_initialize_module_cache(state_view, runtime_environment)`: if the
current preload snapshot already contains the marker module
`0x1::transaction_validation`, return immediately; otherwise rebuild the
whole mapping from the ordered name list and atomically swap it in. The
swappable `MODULE_CACHE` cell is modelled as explicit state. -/
def maybe_init_module_cache (sv : CodeStorageView) (cur : Option FrameworkMap) :
    InitOutcome :=
  match cur with
  | some cache =>
    if (lookupEntry cache (frameworkKey "transaction_validation")).isSome then
      InitOutcome.done cur
    else buildFrameworkCache sv orderedModuleNames []
  | none => buildFrameworkCache sv orderedModuleNames []

/-- Models `get_cached(key)`: lock-free read of the preload snapshot. -/
def get_cached (k : StateKey) (cur : Option FrameworkMap) :
    Option ModuleStorageEntry :=
  cur.bind (fun m => lookupEntry m k)

/-- The entry the preload inserts for a listed framework name, when both its
state value and its verified module are present in the snapshot. -/
def presentEntry (sv : CodeStorageView) (name : String) :
    Option ModuleStorageEntry :=
  match sv.getStateValue (frameworkKey name),
      sv.fetchVerifiedModule accountAddressOne name with
  | Except.ok (some v), Except.ok (some m) =>
    some (ModuleStorageEntry.from_state_value_and_verified_module v m)
  | _, _ => none

/-- Whether an `Except` value is a success. -/
def isOkB {ε α : Type} : Except ε α → Bool
  | Except.ok _ => true
  | Except.error _ => false

/-- Concrete ambient configuration: loader v2 enabled, no timed override. -/
def amb0 : Ambient := ⟨false, none⟩

/-- Concrete empty-ish snapshot whose gas-parameter resolution fails. -/
def svNoGas : EnvStateView :=
  ⟨none, none, none, fun _ => (Except.error "gas config missing",
    Except.error "gas config missing", 0)⟩

/-- Concrete snapshot with resolvable gas parameters and the aggregator-v2
delayed-fields feature enabled. -/
def svAgg : EnvStateView :=
  ⟨some ⟨[FeatureFlag.AGGREGATOR_V2_DELAYED_FIELDS]⟩, some 7, some 11,
   fun _ => (Except.ok ⟨⟨1⟩, ⟨2⟩⟩, Except.ok ⟨3⟩, 5)⟩

/-- The environment the delayed-field entry point builds on `svNoGas`. -/
def envD0 : AptosEnvironment :=
  AptosEnvironment.new_with_delayed_field_optimization_enabled amb0 svNoGas

/-- Its identifier. -/
def id0 : EnvironmentID := EnvironmentID.new envD0

/-- A stored cached-environment pair whose identifier matches `envD0`. -/
def cHit0 : CachedAptosEnvironment := ⟨id0, AptosEnvironment.new amb0 svNoGas⟩

/-- A stored cached-environment pair whose identifier differs from `envD0`. -/
def cMiss0 : CachedAptosEnvironment :=
  ⟨{ id0 with gasFeatureVersion := id0.gasFeatureVersion + 1 },
   AptosEnvironment.new amb0 svNoGas⟩

/-- A verifier oracle that accepts every module; used by concrete scenarios. -/
def venvAll : VerifierEnv := ⟨fun _ _ _ => true, fun _ _ => true⟩

/-- A concrete base snapshot holding the two-module cycle a→b→a. -/
def cycleView : StateKey → Except Unit (Option StateValue) := fun k =>
  if k = ((1, "a") : StateKey) then
    Except.ok (some ⟨⟨1, "a", [(1, "b")]⟩, 10, 20, true⟩)
  else if k = ((1, "b") : StateKey) then
    Except.ok (some ⟨⟨1, "b", [(1, "a")]⟩, 11, 21, true⟩)
  else Except.ok none

/-- A concrete base snapshot holding no modules at all. -/
def emptyView : StateKey → Except Unit (Option StateValue) := fun _ =>
  Except.ok none

/-- A concrete code-storage view on which every read succeeds and every
module (in particular the marker) is present with a verified form. -/
def svOkF : CodeStorageView :=
  ⟨fun k => Except.ok (some ⟨⟨k.1, k.2, []⟩, 0, 0, true⟩),
   fun a n => Except.ok (some ⟨⟨a, n, []⟩⟩)⟩

/-- A concrete code-storage view on which every read fails. -/
def svErrF : CodeStorageView :=
  ⟨fun _ => Except.error (), fun _ _ => Except.error ()⟩

/-- Claim C4: for every cache state, after `mark_invalid()` the cache reports
invalidated; `flush_if_invalidated()` on an invalidated cache leaves it with
no entries and no longer invalidated; and `flush_if_invalidated()` on a
non-invalidated cache leaves the cache (hence every existing entry)
unchanged. -/
theorem c4_invalidation_protocol (c cInv cVal : ModuleCache)
    (hInv : CrossBlockModuleCache.is_invalidated cInv = true)
    (hVal : CrossBlockModuleCache.is_invalidated cVal = false) :
    CrossBlockModuleCache.is_invalidated (CrossBlockModuleCache.mark_invalid c) = true ∧
    (CrossBlockModuleCache.flush_cross_block_module_cache_if_invalidated cInv).modules = [] ∧
    CrossBlockModuleCache.is_invalidated
      (CrossBlockModuleCache.flush_cross_block_module_cache_if_invalidated cInv) = false ∧
    CrossBlockModuleCache.flush_cross_block_module_cache_if_invalidated cVal = cVal := by
  simp only [CrossBlockModuleCache.is_invalidated] at hInv hVal
  refine ⟨?_, ?_, ?_, ?_⟩ <;>
    simp [CrossBlockModuleCache.is_invalidated, CrossBlockModuleCache.mark_invalid,
      CrossBlockModuleCache.flush_cross_block_module_cache_if_invalidated,
      ModuleCache.flush_if_invalidated_and_mark_valid, hInv, hVal]

/-- Witness for C4 at a concrete cache with one entry. -/
theorem c4_invalidation_protocol_witness :
    CrossBlockModuleCache.is_invalidated
      (CrossBlockModuleCache.mark_invalid
        ⟨false, [((1, "code"), ModuleStorageEntry.unverified ⟨1, "code", []⟩ 3 4)]⟩) = true ∧
    (CrossBlockModuleCache.flush_cross_block_module_cache_if_invalidated
      ⟨true, [((1, "code"), ModuleStorageEntry.unverified ⟨1, "code", []⟩ 3 4)]⟩).modules = [] ∧
    CrossBlockModuleCache.is_invalidated
      (CrossBlockModuleCache.flush_cross_block_module_cache_if_invalidated
        ⟨true, [((1, "code"), ModuleStorageEntry.unverified ⟨1, "code", []⟩ 3 4)]⟩) = false ∧
    CrossBlockModuleCache.flush_cross_block_module_cache_if_invalidated
      ⟨false, [((1, "code"), ModuleStorageEntry.unverified ⟨1, "code", []⟩ 3 4)]⟩ =
      ⟨false, [((1, "code"), ModuleStorageEntry.unverified ⟨1, "code", []⟩ 3 4)]⟩ :=
  c4_invalidation_protocol
    ⟨false, [((1, "code"), ModuleStorageEntry.unverified ⟨1, "code", []⟩ 3 4)]⟩
    ⟨true, [((1, "code"), ModuleStorageEntry.unverified ⟨1, "code", []⟩ 3 4)]⟩
    ⟨false, [((1, "code"), ModuleStorageEntry.unverified ⟨1, "code", []⟩ 3 4)]⟩
    (by decide) (by decide)

/-- Claim C3: `fetch_with_delayed_field_optimization_enabled` returns the
stored environment and leaves the stored pair unchanged when the stored
identifier equals the one computed for the current snapshot; when the
identifier differs or nothing is stored, it replaces the stored pair with the
newly built environment plus its identifier and returns the new
environment. -/
theorem c3_cached_environment_fetch (amb : Ambient) (sv : EnvStateView)
    (cHit cMiss : CachedAptosEnvironment)
    (hHit : cHit.id = EnvironmentID.new
      (AptosEnvironment.new_with_delayed_field_optimization_enabled amb sv))
    (hMiss : cMiss.id ≠ EnvironmentID.new
      (AptosEnvironment.new_with_delayed_field_optimization_enabled amb sv)) :
    CachedAptosEnvironment.fetch_with_delayed_field_optimization_enabled amb sv
      (some cHit) = (cHit.env, some cHit) ∧
    CachedAptosEnvironment.fetch_with_delayed_field_optimization_enabled amb sv
      (some cMiss) =
      (AptosEnvironment.new_with_delayed_field_optimization_enabled amb sv,
       some ⟨EnvironmentID.new
          (AptosEnvironment.new_with_delayed_field_optimization_enabled amb sv),
        AptosEnvironment.new_with_delayed_field_optimization_enabled amb sv⟩) ∧
    CachedAptosEnvironment.fetch_with_delayed_field_optimization_enabled amb sv
      none =
      (AptosEnvironment.new_with_delayed_field_optimization_enabled amb sv,
       some ⟨EnvironmentID.new
          (AptosEnvironment.new_with_delayed_field_optimization_enabled amb sv),
        AptosEnvironment.new_with_delayed_field_optimization_enabled amb sv⟩) := by
  refine ⟨?_, ?_, ?_⟩
  · simp only [CachedAptosEnvironment.fetch_with_delayed_field_optimization_enabled]
    rw [if_pos hHit.symm]
  · simp only [CachedAptosEnvironment.fetch_with_delayed_field_optimization_enabled]
    rw [if_neg (fun h => hMiss h.symm)]
  · simp only [CachedAptosEnvironment.fetch_with_delayed_field_optimization_enabled]

/-- Witness for C3 at a concrete snapshot, hit pair and miss pair. -/
theorem c3_cached_environment_fetch_witness :
    CachedAptosEnvironment.fetch_with_delayed_field_optimization_enabled amb0
      svNoGas (some cHit0) = (cHit0.env, some cHit0) ∧
    CachedAptosEnvironment.fetch_with_delayed_field_optimization_enabled amb0
      svNoGas (some cMiss0) =
      (AptosEnvironment.new_with_delayed_field_optimization_enabled amb0 svNoGas,
       some ⟨EnvironmentID.new
          (AptosEnvironment.new_with_delayed_field_optimization_enabled amb0 svNoGas),
        AptosEnvironment.new_with_delayed_field_optimization_enabled amb0 svNoGas⟩) ∧
    CachedAptosEnvironment.fetch_with_delayed_field_optimization_enabled amb0
      svNoGas none =
      (AptosEnvironment.new_with_delayed_field_optimization_enabled amb0 svNoGas,
       some ⟨EnvironmentID.new
          (AptosEnvironment.new_with_delayed_field_optimization_enabled amb0 svNoGas),
        AptosEnvironment.new_with_delayed_field_optimization_enabled amb0 svNoGas⟩) :=
  c3_cached_environment_fetch amb0 svNoGas cHit0 cMiss0 rfl (by decide)

/-- Claim C7: environment construction is total (never fails for missing gas
configuration — `Environment.new` is a total function); when gas-parameter
resolution fails, the error string is recorded and retrievable via the
`gas_params` accessor, and construction proceeds with all-zero native and
misc gas parameters and the default type-size builder. -/
theorem c7_gas_fallback (amb : Ambient) (sv : EnvStateView) (inject : Bool)
    (gasHook : Option GasHook) (msg : String)
    (hErr : (sv.getGasParameters (Environment.effectiveFeatures amb sv)).1 =
      Except.error msg) :
    AptosEnvironment.gas_params_of (Environment.new amb sv inject gasHook) =
      Except.error msg ∧
    (Environment.new amb sv inject gasHook).runtime_environment.natives.nativeGasParams =
      NativeGasParameters.zeros ∧
    (Environment.new amb sv inject gasHook).runtime_environment.natives.miscGasParams =
      MiscGasParameters.zeros ∧
    (Environment.new amb sv inject gasHook).runtime_environment.vmConfig.tyBuilder =
      aptos_default_ty_builder := by
  refine ⟨?_, ?_, ?_, ?_⟩ <;>
    simp [AptosEnvironment.gas_params_of, Environment.new, hErr,
      SafeNativeBuilder.new, aptos_natives_with_builder, aptos_prod_vm_config,
      RuntimeEnvironment.new_with_config, aptos_default_ty_builder]

/-- Witness for C7 at a concrete snapshot with failing gas resolution. -/
theorem c7_gas_fallback_witness :
    AptosEnvironment.gas_params_of (Environment.new amb0 svNoGas false none) =
      Except.error "gas config missing" ∧
    (Environment.new amb0 svNoGas false none).runtime_environment.natives.nativeGasParams =
      NativeGasParameters.zeros ∧
    (Environment.new amb0 svNoGas false none).runtime_environment.natives.miscGasParams =
      MiscGasParameters.zeros ∧
    (Environment.new amb0 svNoGas false none).runtime_environment.vmConfig.tyBuilder =
      aptos_default_ty_builder :=
  c7_gas_fallback amb0 svNoGas false none "gas config missing" rfl

/-- Claim C8: on a freshly built environment,
`try_enable_delayed_field_optimization` leaves the VM-config delayed-field
flag `false` when the aggregator-v2 delayed-fields feature is absent and sets
it `true` when the feature is present; and the operation is idempotent (on
every environment). -/
theorem c8_try_enable_delayed_field_optimization (ambA ambP : Ambient)
    (svA svP : EnvStateView) (injA injP : Bool) (hkA hkP : Option GasHook)
    (hAbsent : (Environment.new ambA svA injA hkA).features.is_aggregator_v2_delayed_fields_enabled = false)
    (hPresent : (Environment.new ambP svP injP hkP).features.is_aggregator_v2_delayed_fields_enabled = true) :
    ((Environment.new ambA svA injA hkA).try_enable_delayed_field_optimization).runtime_environment.vmConfig.delayedFieldOptimizationEnabled = false ∧
    ((Environment.new ambP svP injP hkP).try_enable_delayed_field_optimization).runtime_environment.vmConfig.delayedFieldOptimizationEnabled = true ∧
    ∀ e : Environment,
      e.try_enable_delayed_field_optimization.try_enable_delayed_field_optimization =
        e.try_enable_delayed_field_optimization := by
  refine ⟨?_, ?_, ?_⟩
  · simp only [Environment.try_enable_delayed_field_optimization, hAbsent]
    simp only [Bool.false_eq_true, if_false]
    rfl
  · simp only [Environment.try_enable_delayed_field_optimization, hPresent, if_true]
    rfl
  · intro e
    by_cases h : e.features.is_aggregator_v2_delayed_fields_enabled = true
    · simp [Environment.try_enable_delayed_field_optimization, h,
        RuntimeEnvironment.enable_delayed_field_optimization]
    · simp [Environment.try_enable_delayed_field_optimization, h]

/-- Witness for C8: feature absent on `svNoGas`, present on `svAgg`. -/
theorem c8_try_enable_delayed_field_optimization_witness :
    ((Environment.new amb0 svNoGas false none).try_enable_delayed_field_optimization).runtime_environment.vmConfig.delayedFieldOptimizationEnabled = false ∧
    ((Environment.new amb0 svAgg false none).try_enable_delayed_field_optimization).runtime_environment.vmConfig.delayedFieldOptimizationEnabled = true ∧
    ∀ e : Environment,
      e.try_enable_delayed_field_optimization.try_enable_delayed_field_optimization =
        e.try_enable_delayed_field_optimization :=
  c8_try_enable_delayed_field_optimization amb0 amb0 svNoGas svAgg false false
    none none (by decide) (by decide)

/-- Helper: the dependency loop fails with a linker error naming a missing
dependency once every earlier dependency resolves to a cached verified entry,
and leaves the cache and visited set untouched. -/
theorem traverseDeps_missing_dep (fuel : Nat) (dAddr : Nat) (dName : String)
    (pre : List (Nat × String)) :
    ∀ (cache : ModuleCache) (address : Nat) (moduleName : String)
      (baseView : StateKey → Except Unit (Option StateValue))
      (visited : List StateKey) (venv : VerifierEnv)
      (rest : List (Nat × String)),
    (∀ p ∈ pre, ∃ cm s h m,
      cache.getModule p = some (ModuleStorageEntry.verified cm s h m)) →
    cache.getModule (dAddr, dName) = none →
    baseView (dAddr, dName) = Except.ok none →
    ModuleCache.traverseDeps fuel cache (pre ++ (dAddr, dName) :: rest) address
      moduleName baseView visited venv =
      (Except.error (VMError.linkerError dAddr dName), cache, visited) := by
  induction pre with
  | nil =>
    intro cache address moduleName baseView visited venv rest _ hmiss hview
    simp only [List.nil_append, ModuleCache.traverseDeps,
      ModuleCache.fetch_dep_entry, hmiss, hview]
  | cons p pre ih =>
    intro cache address moduleName baseView visited venv rest hpre hmiss hview
    obtain ⟨pA, pN⟩ := p
    obtain ⟨cm, s, h, m, hget⟩ := hpre (pA, pN) (List.mem_cons_self _ _)
    have hrest : ∀ q ∈ pre, ∃ cm s h m,
        cache.getModule q = some (ModuleStorageEntry.verified cm s h m) :=
      fun q hq => hpre q (List.mem_cons_of_mem _ hq)
    simp only [List.cons_append, ModuleCache.traverseDeps,
      ModuleCache.fetch_dep_entry, hget,
      ModuleStorageEntry.try_as_verified_module,
      ih cache address moduleName baseView visited venv rest hrest hmiss hview]

/-- Claim C5: traversing a module one of whose declared dependencies
(dAddr, dName) is neither in the cache nor present in the base snapshot
(earlier-declared dependencies resolving to cached verified entries) fails
with a linker error naming that missing dependency, and leaves the cache
completely unchanged — in particular no entry is inserted for the top-level
module being traversed. -/
theorem c5_missing_dependency_linker_error (fuel : Nat) (cache : ModuleCache)
    (address dAddr : Nat) (moduleName dName : String) (size hsh : Nat)
    (pre rest : List (Nat × String))
    (baseView : StateKey → Except Unit (Option StateValue))
    (visited : List StateKey) (venv : VerifierEnv)
    (hpre : ∀ p ∈ pre, ∃ cm s h m,
      cache.getModule p = some (ModuleStorageEntry.verified cm s h m))
    (hmiss : cache.getModule (dAddr, dName) = none)
    (hview : baseView (dAddr, dName) = Except.ok none)
    (hlocal : venv.buildLocallyVerifiedOk
      ⟨address, moduleName, pre ++ (dAddr, dName) :: rest⟩ size hsh = true) :
    ModuleCache.traverse (fuel + 1) cache
      (ModuleStorageEntry.unverified
        ⟨address, moduleName, pre ++ (dAddr, dName) :: rest⟩ size hsh)
      address moduleName baseView visited venv =
      (Except.error (VMError.linkerError dAddr dName), cache, visited) := by
  simp only [ModuleCache.traverse, ModuleStorageEntry.as_compiled_module,
    ModuleStorageEntry.size_in_bytes, ModuleStorageEntry.entry_hash, hlocal,
    and_self, if_true,
    traverseDeps_missing_dep fuel dAddr dName pre cache address moduleName
      baseView visited venv rest hpre hmiss hview]

/-- Witness for C5: a module `1::top` depending on the absent `1::dep`. -/
theorem c5_missing_dependency_linker_error_witness :
    ModuleCache.traverse 1 ModuleCache.empty
      (ModuleStorageEntry.unverified ⟨1, "top", [(1, "dep")]⟩ 5 6)
      1 "top" emptyView [] venvAll =
      (Except.error (VMError.linkerError 1 "dep"), ModuleCache.empty, []) := by
  have h := c5_missing_dependency_linker_error 0 ModuleCache.empty 1 1 "top"
    "dep" 5 6 [] [] emptyView [] venvAll
    (by intro p hp; cases hp) (by decide)
    (by decide) (by decide)
  simpa using h

/-- Claim C2: traversing a module a whose immediate-dependency graph contains
the cycle a→b→a (neither module cached) fails with a cyclic-dependency error
naming a, and the cache afterwards is exactly the cache before — no entry at
all, in particular no verified entry, is committed for a or b. -/
theorem c2_cycle_detected (f : Nat) (cache : ModuleCache)
    (aAddr bAddr : Nat) (aName bName : String) (szA hA szB hB : Nat)
    (baseView : StateKey → Except Unit (Option StateValue)) (venv : VerifierEnv)
    (hne : ((aAddr, aName) : StateKey) ≠ (bAddr, bName))
    (hcA : cache.getModule (aAddr, aName) = none)
    (hcB : cache.getModule (bAddr, bName) = none)
    (hvA : baseView (aAddr, aName) =
      Except.ok (some ⟨⟨aAddr, aName, [(bAddr, bName)]⟩, szA, hA, true⟩))
    (hvB : baseView (bAddr, bName) =
      Except.ok (some ⟨⟨bAddr, bName, [(aAddr, aName)]⟩, szB, hB, true⟩))
    (hlA : venv.buildLocallyVerifiedOk ⟨aAddr, aName, [(bAddr, bName)]⟩ szA hA = true)
    (hlB : venv.buildLocallyVerifiedOk ⟨bAddr, bName, [(aAddr, aName)]⟩ szB hB = true) :
    CrossBlockModuleCache.traverse (f + 3) cache
      (ModuleStorageEntry.unverified ⟨aAddr, aName, [(bAddr, bName)]⟩ szA hA)
      aAddr aName baseView venv =
      (Except.error (VMError.cyclicDependencyError aAddr aName), cache) := by
  simp only [CrossBlockModuleCache.traverse, ModuleCache.traverse,
    ModuleCache.traverseDeps, ModuleCache.fetch_dep_entry,
    ModuleStorageEntry.as_compiled_module, ModuleStorageEntry.size_in_bytes,
    ModuleStorageEntry.entry_hash, ModuleStorageEntry.try_as_verified_module,
    ModuleStorageEntry.from_state_value, hcA, hcB, hvA, hvB, hlA, hlB, hne,
    and_self, if_true, List.mem_cons, List.not_mem_nil, or_false, false_or,
    or_true, true_or, if_false, reduceCtorEq]

/-- Witness for C2: the concrete cycle `1::a → 1::b → 1::a` on an empty
cache. -/
theorem c2_cycle_detected_witness :
    CrossBlockModuleCache.traverse 3 ModuleCache.empty
      (ModuleStorageEntry.unverified ⟨1, "a", [(1, "b")]⟩ 10 20)
      1 "a" cycleView venvAll =
      (Except.error (VMError.cyclicDependencyError 1 "a"), ModuleCache.empty) := by
  have h := c2_cycle_detected 0 ModuleCache.empty 1 1 "a" "b" 10 20 11 21
    cycleView venvAll (by decide) (by decide) (by decide) (by decide)
    (by decide) (by decide) (by decide)
  simpa using h

/-- Helper: cache lookup after an insert. -/
theorem getModule_insertModule (c : ModuleCache) (k k' : StateKey)
    (e : ModuleStorageEntry) :
    (c.insertModule k' e).getModule k =
      if k = k' then some e else c.getModule k := by
  simp [ModuleCache.insertModule, ModuleCache.getModule, lookupEntry]

/-- Helper: an entry produced by `make_verified` is verified. -/
theorem is_verified_make_verified (e : ModuleStorageEntry) (m : Module) :
    (e.make_verified m).is_verified = true := rfl

/-- Helper: the dependency loop only ever adds verified entries to the cache,
assuming the same holds of the recursive traversal at the given fuel. -/
theorem traverseDeps_inserts_only_verified (fuel : Nat)
    (ht : ∀ (cache : ModuleCache) (entry : ModuleStorageEntry) (address : Nat)
      (moduleName : String) (baseView : StateKey → Except Unit (Option StateValue))
      (visited : List StateKey) (venv : VerifierEnv) (k : StateKey)
      (e : ModuleStorageEntry),
      (ModuleCache.traverse fuel cache entry address moduleName baseView visited
        venv).2.1.getModule k = some e →
      cache.getModule k = some e ∨ e.is_verified = true) :
    ∀ (deps : List (Nat × String)) (cache : ModuleCache) (address : Nat)
      (moduleName : String) (baseView : StateKey → Except Unit (Option StateValue))
      (visited : List StateKey) (venv : VerifierEnv) (k : StateKey)
      (e : ModuleStorageEntry),
      (ModuleCache.traverseDeps fuel cache deps address moduleName baseView
        visited venv).2.1.getModule k = some e →
      cache.getModule k = some e ∨ e.is_verified = true := by
  intro deps
  induction deps with
  | nil =>
    intro cache address moduleName baseView visited venv k e h
    simp only [ModuleCache.traverseDeps] at h
    exact Or.inl h
  | cons d rest ih =>
    obtain ⟨dA, dN⟩ := d
    intro cache address moduleName baseView visited venv k e h
    simp only [ModuleCache.traverseDeps] at h
    cases hfd : cache.fetch_dep_entry baseView (dA, dN) with
    | error er =>
      rw [hfd] at h
      dsimp only at h
      exact Or.inl h
    | ok depEntry =>
      rw [hfd] at h
      dsimp only at h
      cases hv : depEntry.try_as_verified_module with
      | some m =>
        rw [hv] at h
        dsimp only at h
        rcases htd : ModuleCache.traverseDeps fuel cache rest address moduleName
          baseView visited venv with ⟨r, c', v'⟩
        rw [htd] at h
        cases r with
        | error er =>
          exact ih cache address moduleName baseView visited venv k e
            (by rw [htd]; exact h)
        | ok ms =>
          exact ih cache address moduleName baseView visited venv k e
            (by rw [htd]; exact h)
      | none =>
        rw [hv] at h
        dsimp only at h
        by_cases hmem : ((dA, dN) : StateKey) ∈ visited
        · rw [if_pos hmem] at h
          exact Or.inl h
        · rw [if_neg hmem] at h
          rcases htr : ModuleCache.traverse fuel cache depEntry dA dN baseView
            ((dA, dN) :: visited) venv with ⟨r1, c1, v1⟩
          rw [htr] at h
          cases r1 with
          | error er =>
            exact ht cache depEntry dA dN baseView ((dA, dN) :: visited) venv k e
              (by rw [htr]; exact h)
          | ok m1 =>
            dsimp only at h
            rcases htd2 : ModuleCache.traverseDeps fuel c1 rest address moduleName
              baseView v1 venv with ⟨r2, c2, v2⟩
            rw [htd2] at h
            have hstep : c1.getModule k = some e ∨ e.is_verified = true := by
              cases r2 with
              | error er =>
                exact ih c1 address moduleName baseView v1 venv k e
                  (by rw [htd2]; exact h)
              | ok ms =>
                exact ih c1 address moduleName baseView v1 venv k e
                  (by rw [htd2]; exact h)
            rcases hstep with hc1 | hver
            · exact ht cache depEntry dA dN baseView ((dA, dN) :: visited) venv k e
                (by rw [htr]; exact hc1)
            · exact Or.inr hver

/-- Claim C9: every entry that `ModuleCache::traverse` adds to the cache is a
verified entry (built by `make_verified` after final verification succeeds):
any entry found in the cache after a traversal was either already in the
cache before the traversal or is verified. Unverified entries can therefore
enter the cross-block cache only through the separate
`store_to_cross_block_module_cache` (put) operation. -/
theorem c9_traverse_inserts_only_verified : ∀ (fuel : Nat)
    (cache : ModuleCache) (entry : ModuleStorageEntry) (address : Nat)
    (moduleName : String) (baseView : StateKey → Except Unit (Option StateValue))
    (visited : List StateKey) (venv : VerifierEnv) (k : StateKey)
    (e : ModuleStorageEntry),
    (ModuleCache.traverse fuel cache entry address moduleName baseView visited
      venv).2.1.getModule k = some e →
    cache.getModule k = some e ∨ e.is_verified = true := by
  intro fuel
  induction fuel with
  | zero =>
    intro cache entry address moduleName baseView visited venv k e h
    simp only [ModuleCache.traverse] at h
    exact Or.inl h
  | succ f ihf =>
    intro cache entry address moduleName baseView visited venv k e h
    simp only [ModuleCache.traverse] at h
    by_cases hpc : entry.as_compiled_module.address = address ∧
        entry.as_compiled_module.name = moduleName
    · rw [if_pos hpc] at h
      by_cases hbl : venv.buildLocallyVerifiedOk entry.as_compiled_module
          entry.size_in_bytes entry.entry_hash = true
      · rw [if_pos hbl] at h
        rcases htd : ModuleCache.traverseDeps f cache
          entry.as_compiled_module.deps address moduleName baseView visited venv
          with ⟨r, c', v'⟩
        rw [htd] at h
        cases r with
        | error er =>
          exact traverseDeps_inserts_only_verified f ihf
            entry.as_compiled_module.deps cache address moduleName baseView
            visited venv k e (by rw [htd]; exact h)
        | ok ms =>
          dsimp only at h
          by_cases hbv : venv.buildVerifiedOk entry.as_compiled_module ms = true
          · rw [if_pos hbv] at h
            rw [getModule_insertModule] at h
            by_cases hk : k = (address, moduleName)
            · rw [if_pos hk] at h
              refine Or.inr ?_
              cases h
              exact is_verified_make_verified _ _
            · rw [if_neg hk] at h
              exact traverseDeps_inserts_only_verified f ihf
                entry.as_compiled_module.deps cache address moduleName baseView
                visited venv k e (by rw [htd]; exact h)
          · rw [if_neg hbv] at h
            exact traverseDeps_inserts_only_verified f ihf
              entry.as_compiled_module.deps cache address moduleName baseView
              visited venv k e (by rw [htd]; exact h)
      · rw [if_neg hbl] at h
        exact Or.inl h
    · rw [if_neg hpc] at h
      exact Or.inl h

/-- Witness for C9: a successful dep-free traversal of `1::a` on the empty
cache; the entry found afterwards at `(1, "a")` is verified. -/
theorem c9_traverse_inserts_only_verified_witness :
    ModuleCache.empty.getModule (1, "a") =
      some (ModuleStorageEntry.verified ⟨1, "a", []⟩ 2 3 ⟨⟨1, "a", []⟩⟩) ∨
    (ModuleStorageEntry.verified ⟨1, "a", []⟩ 2 3 ⟨⟨1, "a", []⟩⟩).is_verified = true :=
  c9_traverse_inserts_only_verified 1 ModuleCache.empty
    (ModuleStorageEntry.unverified ⟨1, "a", []⟩ 2 3) 1 "a" emptyView [] venvAll
    (1, "a") (ModuleStorageEntry.verified ⟨1, "a", []⟩ 2 3 ⟨⟨1, "a", []⟩⟩)
    (by simp [ModuleCache.traverse, ModuleCache.traverseDeps,
      ModuleCache.fetch_dep_entry, ModuleStorageEntry.as_compiled_module,
      ModuleStorageEntry.size_in_bytes, ModuleStorageEntry.entry_hash,
      ModuleStorageEntry.make_verified, ModuleCache.empty, ModuleCache.getModule,
      ModuleCache.insertModule, lookupEntry, venvAll, emptyView])

/-- Helper: `frameworkKey` is injective. -/
theorem frameworkKey_inj {a b : String} (h : frameworkKey a = frameworkKey b) :
    a = b := by
  simpa [frameworkKey] using h

/-- Helper: when every listed read succeeds, the preload loop completes; the
resulting mapping contains every both-present name that is listed or already
correctly accumulated, and contains no key of a name whose state value or
verified module is absent. -/
theorem buildFrameworkCache_ok (sv : CodeStorageView) :
    ∀ (names : List String) (acc : FrameworkMap),
    (∀ n ∈ names, isOkB (sv.getStateValue (frameworkKey n)) = true ∧
      isOkB (sv.fetchVerifiedModule accountAddressOne n) = true) →
    ∃ mp : FrameworkMap,
      buildFrameworkCache sv names acc = InitOutcome.done (some mp) ∧
      (∀ (n : String) (e : ModuleStorageEntry), presentEntry sv n = some e →
        (n ∈ names ∨ lookupEntry acc (frameworkKey n) = some e) →
        lookupEntry mp (frameworkKey n) = some e) ∧
      (∀ n : String, presentEntry sv n = none →
        lookupEntry acc (frameworkKey n) = none →
        lookupEntry mp (frameworkKey n) = none) := by
  intro names
  induction names with
  | nil =>
    intro acc _
    refine ⟨acc, by simp [buildFrameworkCache], ?_, ?_⟩
    · intro n e _ hmem
      rcases hmem with hmem | hacc
      · exact absurd hmem (List.not_mem_nil n)
      · exact hacc
    · intro n _ hacc
      exact hacc
  | cons hd rest ih =>
    intro acc hok
    obtain ⟨hg, hf⟩ := hok hd (List.mem_cons_self _ _)
    have hokrest : ∀ n ∈ rest,
        isOkB (sv.getStateValue (frameworkKey n)) = true ∧
        isOkB (sv.fetchVerifiedModule accountAddressOne n) = true :=
      fun n hn => hok n (List.mem_cons_of_mem _ hn)
    cases hgv : sv.getStateValue (frameworkKey hd) with
    | error e0 =>
      rw [hgv] at hg
      simp [isOkB] at hg
    | ok o =>
      cases hfv : sv.fetchVerifiedModule accountAddressOne hd with
      | error e0 =>
        rw [hfv] at hf
        simp [isOkB] at hf
      | ok mo =>
        cases o with
        | some v =>
          cases mo with
          | some m =>
            have hpe : presentEntry sv hd = some
                (ModuleStorageEntry.from_state_value_and_verified_module v m) := by
              simp [presentEntry, hgv, hfv]
            obtain ⟨mp, hbuild, hlook, habs⟩ := ih
              ((frameworkKey hd,
                ModuleStorageEntry.from_state_value_and_verified_module v m) :: acc)
              hokrest
            refine ⟨mp, ?_, ?_, ?_⟩
            · simp only [buildFrameworkCache, hgv, hfv]
              exact hbuild
            · intro n e hpen hmem
              apply hlook n e hpen
              by_cases hk : frameworkKey n = frameworkKey hd
              · have hn : n = hd := frameworkKey_inj hk
                subst hn
                rw [hpen] at hpe
                have he : e = ModuleStorageEntry.from_state_value_and_verified_module v m :=
                  Option.some.inj hpe
                refine Or.inr ?_
                simp [lookupEntry, hk, he]
              · rcases hmem with hm | hacc
                · rcases List.mem_cons.mp hm with rfl | hmr
                  · exact absurd rfl hk
                  · exact Or.inl hmr
                · refine Or.inr ?_
                  simpa [lookupEntry, hk] using hacc
            · intro n hpen hacc
              apply habs n hpen
              by_cases hk : frameworkKey n = frameworkKey hd
              · have hn : n = hd := frameworkKey_inj hk
                subst hn
                rw [hpen] at hpe
                cases hpe
              · simpa [lookupEntry, hk] using hacc
          | none =>
            have hpe : presentEntry sv hd = none := by
              simp [presentEntry, hgv, hfv]
            obtain ⟨mp, hbuild, hlook, habs⟩ := ih acc hokrest
            refine ⟨mp, ?_, ?_, ?_⟩
            · simp only [buildFrameworkCache, hgv, hfv]
              exact hbuild
            · intro n e hpen hmem
              apply hlook n e hpen
              rcases hmem with hm | hacc
              · rcases List.mem_cons.mp hm with rfl | hmr
                · rw [hpen] at hpe
                  cases hpe
                · exact Or.inl hmr
              · exact Or.inr hacc
            · intro n hpen hacc
              exact habs n hpen hacc
        | none =>
          cases mo with
          | some m =>
            have hpe : presentEntry sv hd = none := by
              simp [presentEntry, hgv, hfv]
            obtain ⟨mp, hbuild, hlook, habs⟩ := ih acc hokrest
            refine ⟨mp, ?_, ?_, ?_⟩
            · simp only [buildFrameworkCache, hgv, hfv]
              exact hbuild
            · intro n e hpen hmem
              apply hlook n e hpen
              rcases hmem with hm | hacc
              · rcases List.mem_cons.mp hm with rfl | hmr
                · rw [hpen] at hpe
                  cases hpe
                · exact Or.inl hmr
              · exact Or.inr hacc
            · intro n hpen hacc
              exact habs n hpen hacc
          | none =>
            have hpe : presentEntry sv hd = none := by
              simp [presentEntry, hgv, hfv]
            obtain ⟨mp, hbuild, hlook, habs⟩ := ih acc hokrest
            refine ⟨mp, ?_, ?_, ?_⟩
            · simp only [buildFrameworkCache, hgv, hfv]
              exact hbuild
            · intro n e hpen hmem
              apply hlook n e hpen
              rcases hmem with hm | hacc
              · rcases List.mem_cons.mp hm with rfl | hmr
                · rw [hpen] at hpe
                  cases hpe
                · exact Or.inl hmr
              · exact Or.inr hacc
            · intro n hpen hacc
              exact habs n hpen hacc

/-- Helper: a single failed read among the listed names aborts the preload
loop with a panic. -/
theorem buildFrameworkCache_panics (sv : CodeStorageView) :
    ∀ (names : List String) (acc : FrameworkMap),
    (∃ n ∈ names, isOkB (sv.getStateValue (frameworkKey n)) = false ∨
      isOkB (sv.fetchVerifiedModule accountAddressOne n) = false) →
    buildFrameworkCache sv names acc = InitOutcome.panicked := by
  intro names
  induction names with
  | nil =>
    intro acc h
    obtain ⟨n, hn, _⟩ := h
    exact absurd hn (List.not_mem_nil n)
  | cons hd rest ih =>
    intro acc h
    cases hgv : sv.getStateValue (frameworkKey hd) with
    | error e0 =>
      simp only [buildFrameworkCache, hgv]
    | ok o =>
      cases hfv : sv.fetchVerifiedModule accountAddressOne hd with
      | error e0 =>
        simp only [buildFrameworkCache, hgv, hfv]
      | ok mo =>
        have hrest : ∃ n ∈ rest,
            isOkB (sv.getStateValue (frameworkKey n)) = false ∨
            isOkB (sv.fetchVerifiedModule accountAddressOne n) = false := by
          obtain ⟨n, hn, hbad⟩ := h
          rcases List.mem_cons.mp hn with rfl | hmr
          · rcases hbad with hbad | hbad
            · rw [hgv] at hbad
              simp [isOkB] at hbad
            · rw [hfv] at hbad
              simp [isOkB] at hbad
          · exact ⟨n, hmr, hbad⟩
        cases o with
        | some v =>
          cases mo with
          | some m =>
            simp only [buildFrameworkCache, hgv, hfv]
            exact ih _ hrest
          | none =>
            simp only [buildFrameworkCache, hgv, hfv]
            exact ih _ hrest
        | none =>
          cases mo with
          | some m =>
            simp only [buildFrameworkCache, hgv, hfv]
            exact ih _ hrest
          | none =>
            simp only [buildFrameworkCache, hgv, hfv]
            exact ih _ hrest

/-- Claim C6: on a snapshot whose reads all succeed and which contains the
marker module `0x1::transaction_validation`, a cold run of the framework
preload completes with a mapping on which `get_cached` returns a present
entry for every listed framework module whose state value and verified module
are present in the snapshot; and a second call on the resulting warm cache —
under any view whatsoever, so in particular without performing any read or
rebuild — returns immediately with the cache unchanged (the marker-module
check succeeds). -/
theorem c6_framework_preload (sv : CodeStorageView)
    (hok : ∀ n ∈ orderedModuleNames,
      isOkB (sv.getStateValue (frameworkKey n)) = true ∧
      isOkB (sv.fetchVerifiedModule accountAddressOne n) = true)
    (hmarker : (presentEntry sv "transaction_validation").isSome = true) :
    ∃ mp : FrameworkMap,
      maybe_init_module_cache sv none = InitOutcome.done (some mp) ∧
      (∀ (n : String) (e : ModuleStorageEntry), n ∈ orderedModuleNames →
        presentEntry sv n = some e →
        get_cached (frameworkKey n) (some mp) = some e) ∧
      (∀ sv' : CodeStorageView,
        maybe_init_module_cache sv' (some mp) = InitOutcome.done (some mp)) := by
  obtain ⟨mp, hbuild, hlook, _⟩ := buildFrameworkCache_ok sv orderedModuleNames [] hok
  obtain ⟨em, hem⟩ := Option.isSome_iff_exists.mp hmarker
  have hmarkerMem : "transaction_validation" ∈ orderedModuleNames := by decide
  have hmlook : lookupEntry mp (frameworkKey "transaction_validation") = some em :=
    hlook "transaction_validation" em hem (Or.inl hmarkerMem)
  refine ⟨mp, ?_, ?_, ?_⟩
  · simpa [maybe_init_module_cache] using hbuild
  · intro n e hn hpe
    simpa [get_cached] using hlook n e hpe (Or.inl hn)
  · intro sv'
    simp [maybe_init_module_cache, hmlook]

/-- Witness for C6 on the all-present concrete view. -/
theorem c6_framework_preload_witness :
    ∃ mp : FrameworkMap,
      maybe_init_module_cache svOkF none = InitOutcome.done (some mp) ∧
      (∀ (n : String) (e : ModuleStorageEntry), n ∈ orderedModuleNames →
        presentEntry svOkF n = some e →
        get_cached (frameworkKey n) (some mp) = some e) ∧
      (∀ sv' : CodeStorageView,
        maybe_init_module_cache sv' (some mp) = InitOutcome.done (some mp)) :=
  c6_framework_preload svOkF (by decide) (by decide)

/-- Claim C10: during a cold framework preload, a failed state read or a
failed verified-module fetch for any listed framework module aborts the
process via the `assert_ok!` assertion (modelled as `InitOutcome.panicked`)
rather than being skipped or propagated as a VM error; whereas when every
read succeeds, the preload completes, and a listed module whose state value
or verified module is merely absent is silently skipped (no entry under its
key, no panic, no error). -/
theorem c10_framework_preload_abort (svErr svOk : CodeStorageView) (n : String)
    (hn : n ∈ orderedModuleNames)
    (herr : isOkB (svErr.getStateValue (frameworkKey n)) = false ∨
      isOkB (svErr.fetchVerifiedModule accountAddressOne n) = false)
    (hok : ∀ m ∈ orderedModuleNames,
      isOkB (svOk.getStateValue (frameworkKey m)) = true ∧
      isOkB (svOk.fetchVerifiedModule accountAddressOne m) = true) :
    maybe_init_module_cache svErr none = InitOutcome.panicked ∧
    ∃ mp : FrameworkMap,
      maybe_init_module_cache svOk none = InitOutcome.done (some mp) ∧
      ∀ m : String, presentEntry svOk m = none →
        lookupEntry mp (frameworkKey m) = none := by
  constructor
  · have h := buildFrameworkCache_panics svErr orderedModuleNames [] ⟨n, hn, herr⟩
    simpa [maybe_init_module_cache] using h
  · obtain ⟨mp, hbuild, _, habs⟩ := buildFrameworkCache_ok svOk orderedModuleNames [] hok
    refine ⟨mp, by simpa [maybe_init_module_cache] using hbuild, ?_⟩
    intro m hpm
    exact habs m hpm rfl

/-- Witness for C10: the all-failing and all-present concrete views, with the
failed read at the first listed module. -/
theorem c10_framework_preload_abort_witness :
    maybe_init_module_cache svErrF none = InitOutcome.panicked ∧
    ∃ mp : FrameworkMap,
      maybe_init_module_cache svOkF none = InitOutcome.done (some mp) ∧
      ∀ m : String, presentEntry svOkF m = none →
        lookupEntry mp (frameworkKey m) = none :=
  c10_framework_preload_abort svErrF svOkF "vector" (by decide) (by decide)
    (by decide)

/-- Claim C1 counterexample: contrary to the claim that
`new_with_delayed_field_optimization_enabled` differs from `new` only in the
delayed-field-optimization flag, the source passes `true` for
`inject_create_signer_for_gov_sim` (environment.rs line 76), so on any
snapshot — here the concrete `(amb0, svNoGas)` — the built environment has
the create-signer injection enabled (both the recorded flag and the native
table), while `new` leaves it disabled. -/
theorem c1_delayed_field_constructor_injects_create_signer :
    (AptosEnvironment.new_with_delayed_field_optimization_enabled amb0 svNoGas).inject_create_signer_for_gov_sim = true ∧
    (AptosEnvironment.new amb0 svNoGas).inject_create_signer_for_gov_sim = false ∧
    (AptosEnvironment.new_with_delayed_field_optimization_enabled amb0 svNoGas).runtime_environment.natives.injectCreateSignerForGovSim = true ∧
    (AptosEnvironment.new amb0 svNoGas).runtime_environment.natives.injectCreateSignerForGovSim = false := by
  decide

end Aptos
